import Mathlib

/-!
# TaskForge: verification of the extraction-and-delivery pipeline core

Shallow embedding, in Lean 4, of the reliability and extraction core of the
TaskForge repository (`apps/core/`): the circuit breaker, the cache staleness
check, the precision task extractor's LLM-output parsing and validation, the
Fireflies transcript client's pagination/persistence logic, the Monday.com
delivery client, and the Gemini client's prompt-hash cache.

Each definition is translated from the corresponding Python source file.
Timestamps are modelled as integers (seconds since the epoch); Python's
dynamically typed JSON values are modelled by the inductive `PyJson`;
external library primitives (SHA-256/MD5 digests, ISO-8601 datetime parsing,
`json.dumps`/`json.loads`) are passed in as function parameters, since the
code under verification only ever composes them.
-/

set_option autoImplicit false

namespace TaskForge

/-! ### Circuit breaker (`apps/core/circuit_breaker.py`)

`CircuitBreakerState`, `CircuitBreaker.can_execute`, `record_success`,
`record_failure` and `call` are translated line by line.  `datetime.utcnow()`
is replaced by an explicit `now : Int` argument (seconds); the comparison
`datetime.utcnow() - last_failure_time >= timedelta(seconds=timeout)`
becomes `now - t ≥ timeout` over `Int`. -/

inductive CircuitBreakerState where
  | closed
  | «open»
  | halfOpen
deriving DecidableEq, Repr

structure CircuitBreaker where
  failure_threshold : Nat
  timeout : Int
  success_threshold : Nat
  state : CircuitBreakerState
  failure_count : Nat
  success_count : Nat
  last_failure_time : Option Int
  last_success_time : Option Int
deriving DecidableEq, Repr

/-- Model of `CircuitBreaker.__init__` with the given thresholds: state CLOSED,
both counters zero, no recorded failure or success times. -/
def CircuitBreaker.init (failure_threshold : Nat := 5) (timeout : Int := 60)
    (success_threshold : Nat := 3) : CircuitBreaker :=
  { failure_threshold := failure_threshold
    timeout := timeout
    success_threshold := success_threshold
    state := .closed
    failure_count := 0
    success_count := 0
    last_failure_time := none
    last_success_time := none }

/-- Model of `CircuitBreaker.can_execute` at time `now`.  Returns whether the call may
proceed together with the (possibly updated) breaker, since the OPEN branch
mutates `state` to HALF_OPEN when the timeout has elapsed. -/
def CircuitBreaker.canExecute (cb : CircuitBreaker) (now : Int) :
    Bool × CircuitBreaker :=
  match cb.state with
  | .closed => (true, cb)
  | .«open» =>
    match cb.last_failure_time with
    | some t =>
      if now - t ≥ cb.timeout then
        (true, { cb with state := .halfOpen })
      else
        (false, cb)
    | none => (false, cb)
  | .halfOpen => (true, cb)

/-- Model of `CircuitBreaker.record_success` at time `now`. -/
def CircuitBreaker.recordSuccess (cb : CircuitBreaker) (now : Int) :
    CircuitBreaker :=
  let cb := { cb with last_success_time := some now }
  if cb.state = .halfOpen then
    let cb := { cb with success_count := cb.success_count + 1 }
    if cb.success_count ≥ cb.success_threshold then
      { cb with state := .closed, failure_count := 0 }
    else
      cb
  else
    cb

/-- Model of `CircuitBreaker.record_failure` at time `now`. -/
def CircuitBreaker.recordFailure (cb : CircuitBreaker) (now : Int) :
    CircuitBreaker :=
  let cb := { cb with
    failure_count := cb.failure_count + 1
    last_failure_time := some now }
  if cb.state = .closed ∧ cb.failure_count ≥ cb.failure_threshold then
    { cb with state := .«open» }
  else
    cb

/-- Result of `CircuitBreaker.call`: either the operation's own outcome, or
the `CircuitBreakerOpenError` raised without running the operation. -/
inductive CallOutcome (α : Type) where
  | ok (a : α)
  | opError (msg : String)
  | circuitBreakerOpenError
deriving DecidableEq, Repr

/-- Model of `CircuitBreaker.call` at time `now`.  The wrapped operation is modelled
by its outcome `op` (`Except.ok` = returns, `Except.error` = raises).
Returns the outcome, the updated breaker, and whether the operation ran. -/
def CircuitBreaker.callOp {α : Type} (cb : CircuitBreaker) (now : Int)
    (op : Except String α) : CallOutcome α × CircuitBreaker × Bool :=
  match cb.canExecute now with
  | (false, cb') => (.circuitBreakerOpenError, cb', false)
  | (true, cb') =>
    match op with
    | .ok a => (.ok a, cb'.recordSuccess now, true)
    | .error e => (.opError e, cb'.recordFailure now, true)

/-! ### Python string primitives

Python string operations are modelled over the character list of a Lean
`String` with plain structural recursion, so that every definition in this
file evaluates inside the kernel.  Python slicing (`s[7:]`, `s[:-3]`,
`s[:500]`) is by code point, exactly `List.drop` / `List.take` on the
character list.  Whitespace is `Char.isWhitespace` (space, tab, CR, LF),
which covers every whitespace the code actually handles. -/

/-- Python `s[n:]`. -/
def pyDrop (s : String) (n : Nat) : String := ⟨s.data.drop n⟩

/-- Python `s[:-n]` (for `n` not exceeding the length). -/
def pyDropRight (s : String) (n : Nat) : String :=
  ⟨(s.data.reverse.drop n).reverse⟩

/-- Python `s[:n]`. -/
def pyTake (s : String) (n : Nat) : String := ⟨s.data.take n⟩

/-- Python `s.startswith(pre)`. -/
def pyStartsWith (s pre : String) : Bool := pre.data.isPrefixOf s.data

/-- Python `s.endswith(suf)`. -/
def pyEndsWith (s suf : String) : Bool :=
  suf.data.reverse.isPrefixOf s.data.reverse

/-- Python `s.strip()` with no argument: drop leading and trailing
whitespace. -/
def pyStrip (s : String) : String :=
  ⟨((s.data.dropWhile Char.isWhitespace).reverse.dropWhile
      Char.isWhitespace).reverse⟩

/-- Helper for `pyReplace`: scan left to right, replacing each
non-overlapping occurrence; the fuel argument (initially the input length)
makes the recursion structural. -/
def pyReplaceFuel (old new : List Char) : Nat → List Char → List Char
  | 0, l => l
  | _ + 1, [] => []
  | fuel + 1, c :: rest =>
    if old.isPrefixOf (c :: rest) then
      new ++ pyReplaceFuel old new fuel ((c :: rest).drop old.length)
    else
      c :: pyReplaceFuel old new fuel rest

/-- Python `s.replace(old, new)` for a non-empty `old`. -/
def pyReplace (s old new : String) : String :=
  ⟨pyReplaceFuel old.data new.data s.data.length s.data⟩

/-- Helper for `pySplitWords`: accumulate the current word (reversed) while
scanning. -/
def pySplitWordsAux : List Char → List Char → List String
  | [], cur => if cur.isEmpty then [] else [⟨cur.reverse⟩]
  | c :: rest, cur =>
    if c.isWhitespace then
      if cur.isEmpty then pySplitWordsAux rest []
      else (⟨cur.reverse⟩ : String) :: pySplitWordsAux rest []
    else pySplitWordsAux rest (c :: cur)

/-! ### JSON values and Python string helpers

`PyJson` models the values produced by `json.loads`.  `pySplitWords` models
Python's `str.split()` with no arguments: split on whitespace runs and drop
empty pieces. -/

inductive PyJson where
  | null
  | bool (b : Bool)
  | num (n : Int)
  | str (s : String)
  | arr (items : List PyJson)
  | obj (fields : List (String × PyJson))
deriving Repr

/-- Python `str.split()` (no separator): pieces between whitespace runs. -/
def pySplitWords (s : String) : List String :=
  pySplitWordsAux s.data []

/-! ### Precision extractor: LLM output parsing
(`apps/core/precision_extractor.py`, `PrecisionTaskExtractor._parse_ai_output`)

`json.loads` is the library primitive `jsonLoads` (`none` models a
`JSONDecodeError`).  The fence stripping (`[7:]`, `[3:]`, `[:-3]`, `strip()`)
becomes `pyDrop`, `pyDropRight` and `pyStrip`.  The function
is split into the fence-cleaning prefix (`cleanAiOutput`, the four
`cleaned_output` rebindings) and the decode-and-coerce tail
(`coerceTasksData`). -/

def cleanAiOutput (aiOutput : String) : String :=
  let cleaned := pyStrip aiOutput
  let cleaned :=
    if pyStartsWith cleaned "```json" then pyDrop cleaned 7
    else if pyStartsWith cleaned "```" then pyDrop cleaned 3
    else cleaned
  let cleaned :=
    if pyEndsWith cleaned "```" then pyDropRight cleaned 3 else cleaned
  pyStrip cleaned

/-- The tail of `_parse_ai_output` after `json.loads`: wrap a bare dict in a
one-element list, keep a list, reject everything else (and decode errors)
with the empty list. -/
def coerceTasksData (v : Option PyJson) : List PyJson :=
  match v with
  | none => []
  | some (.obj fields) => [.obj fields]
  | some (.arr items) => items
  | some _ => []

/-- Model of `PrecisionTaskExtractor._parse_ai_output`: clean markdown
fencing, decode, coerce. -/
def parseAiOutput (jsonLoads : String → Option PyJson) (aiOutput : String) :
    List PyJson :=
  coerceTasksData (jsonLoads (cleanAiOutput aiOutput))

/-! ### Persistence model rows

`ProcessedTaskRow` models `apps/core/models.py` `ProcessedTaskData` (the
fields the pipeline reads and writes; Django defaults: `delivery_status =
'pending'`, `human_approved = False`, `monday_item_id` and `delivery_errors`
empty).  `due_date` keeps the UTC millisecond value handed to
`datetime.fromtimestamp(ms / 1000)`.  Unused display metadata
(`processing_notes`, `extraction_confidence`, `source_sentences`,
review fields) is omitted. -/

structure ProcessedTaskRow where
  task_item : String
  assignee_emails : String
  assignee_full_names : String
  priority : String
  brief_description : String
  due_date : Option Int
  status : String
  human_approved : Bool
  delivery_status : String
  monday_item_id : String
  delivered_at : Option Int
  delivery_errors : List String
deriving DecidableEq, Repr

/-- Model of `ProcessedTaskData.is_ready_for_delivery` (`apps/core/models.py`):
approved, still pending, and the `task_item` / `assignee_emails` strings
truthy (non-empty). -/
def ProcessedTaskRow.isReadyForDelivery (t : ProcessedTaskRow) : Bool :=
  t.human_approved && (t.delivery_status == "pending") &&
    (t.task_item != "") && (t.assignee_emails != "")

/-- Model of `ProcessedTaskData.mark_delivered` at time `now`: flip
`delivery_status` to `delivered`, stamp `delivered_at`, and store the
Monday item id when one is passed (truthy). -/
def ProcessedTaskRow.markDelivered (t : ProcessedTaskRow) (now : Int)
    (monday_item_id : Option String) : ProcessedTaskRow :=
  let t := { t with delivery_status := "delivered", delivered_at := some now }
  match monday_item_id with
  | some id => if id ≠ "" then { t with monday_item_id := id } else t
  | none => t

/-! ### Precision extractor: task construction
(`apps/core/precision_extractor.py`, `_create_processed_task`)

The parsed JSON object is modelled by `GeminiTaskData`: one `Option`-typed
slot per key the code reads.  `none` models an absent key, which makes the
required-fields loop `return None`; a present value of a type the code
cannot consume is also `none`, standing for the function's catch-all
`except Exception: return None`.  `due_date` distinguishes a JSON number
(consumed via `datetime.fromtimestamp(ms / 1000)`) from a JSON string
(fails the `isinstance` check, so no date is set). -/

inductive PyDueDate where
  | num (ms : Int)
  | str (s : String)
deriving DecidableEq, Repr

structure GeminiTaskData where
  task_item : Option String
  assignee_emails : Option String
  assignee_full_names : Option String
  priority : Option String
  brief_description : Option String
  status : Option String
  due_date : Option PyDueDate
deriving DecidableEq, Repr

/-- The six allowed `status` labels, in the order of the source list. -/
def allowedStatuses : List String :=
  ["To Do", "Stuck", "Working on it", "Waiting for review", "Approved", "Done"]

/-- The three allowed `priority` labels. -/
def allowedPriorities : List String := ["High", "Medium", "Low"]

/-- The due-date branch of `_create_processed_task`: only a truthy numeric
value that is not the string `'null'` yields a date (kept in milliseconds;
the source converts to a datetime via `fromtimestamp(ms / 1000)`). -/
def parseDueDate (d : Option PyDueDate) : Option Int :=
  match d with
  | some (.num ms) => if ms ≠ 0 then some ms else none
  | some (.str _) => none
  | none => none

/-- Model of `PrecisionTaskExtractor._create_processed_task`: require the six N8N
fields, truncate the `CharField` values to their maximum lengths, clamp
`priority` and `status` to their allowed sets (defaults `Medium` and
`To Do`), and build a pending, unapproved `ProcessedTaskData` row. -/
def createProcessedTask (td : GeminiTaskData) : Option ProcessedTaskRow :=
  match td.task_item, td.assignee_emails, td.assignee_full_names,
      td.priority, td.brief_description, td.status with
  | some ti, some ae, some an, some pr, some bd, some st =>
    some
      { task_item := pyTake ti 500
        assignee_emails := pyTake ae 500
        assignee_full_names := pyTake an 500
        priority := if pr ∈ allowedPriorities then pr else "Medium"
        brief_description := bd
        due_date := parseDueDate td.due_date
        status := if st ∈ allowedStatuses then st else "To Do"
        human_approved := false
        delivery_status := "pending"
        monday_item_id := ""
        delivered_at := none
        delivery_errors := [] }
  | _, _, _, _, _, _ => none

/-! ### `GeminiProcessedTask.save` validity flags
(`apps/core/models.py`, `GeminiProcessedTask.save`)

Only the fields the override touches are modelled.  `len(self.task_item.split())
if self.task_item else 0` agrees with `(pySplitWords …).length` (an empty
string splits to the empty list). -/

structure GeminiProcessedTaskRow where
  task_item : String
  brief_description : String
  meets_word_count_requirement : Bool
  meets_description_requirement : Bool
deriving DecidableEq, Repr

/-- The `save` override: recompute both validity flags from the stored text
before persisting. -/
def GeminiProcessedTaskRow.save (g : GeminiProcessedTaskRow) :
    GeminiProcessedTaskRow :=
  let word_count := (pySplitWords g.task_item).length
  let desc_word_count := (pySplitWords g.brief_description).length
  { g with
    meets_word_count_requirement := word_count ≥ 10
    meets_description_requirement := 30 ≤ desc_word_count ∧ desc_word_count ≤ 50 }

/-! ### Cache manager staleness check
(`apps/core/cache_manager.py`, `CacheManager._generate_cache_key` and
`CacheManager.is_cache_stale`)

A cached value is either a Python dict whose relevant entries are the
ISO-8601 strings its writers (`set_fireflies_transcripts`,
`set_gemini_extraction`, …) store, or some non-dict value.  The library
primitives are parameters: `md5hex` (hashing of over-long keys) and
`fromiso` (`datetime.fromisoformat`; `none` models the `ValueError` /
`TypeError` the source catches).  Cache backends are lookup functions from
key to stored value (`none` = miss). -/

inductive CacheValue where
  | dict (fields : List (String × String))
  | nonDict
deriving DecidableEq, Repr

/-- Model of `CacheManager._generate_cache_key` for the no-kwargs call in
`is_cache_stale`: concatenate prefix and identifier, hashing keys longer
than 200 characters. -/
def generateCacheKey (md5hex : String → String) (pfx identifier : String) :
    String :=
  let cache_key := pfx ++ identifier
  if cache_key.length > 200 then pfx ++ md5hex cache_key else cache_key

/-- The literal `prefix_map` dict inside `is_cache_stale`. -/
def prefixMap : List (String × String) :=
  [("fireflies_comprehensive", "FIREFLIES_COMPREHENSIVE"),
   ("fireflies_today", "FIREFLIES_TODAY"),
   ("gemini_extraction", "GEMINI_EXTRACTION"),
   ("system_health", "SYSTEM_HEALTH"),
   ("api_status", "API_STATUS")]

/-- The backend-selection branch of `is_cache_stale`: `fireflies*` types use
the fireflies cache, `gemini*` types the gemini cache, all others the
default cache. -/
def selectBackend (defaultC firefliesC geminiC : String → Option CacheValue)
    (cache_type : String) : String → Option CacheValue :=
  if cache_type.startsWith "fireflies" then firefliesC
  else if cache_type.startsWith "gemini" then geminiC
  else defaultC

/-- Model of `CacheManager.is_cache_stale`: unknown cache types, misses, non-dict
data, missing or unparsable `expires_at` are all stale; otherwise compare
`now` with the parsed expiry. -/
def isCacheStale (md5hex : String → String) (fromiso : String → Option Int)
    (prefixes : List (String × String))
    (defaultC firefliesC geminiC : String → Option CacheValue)
    (now : Int) (cache_type identifier : String) : Bool :=
  match prefixMap.lookup cache_type with
  | none => true
  | some prefix_key =>
    let pfx := (prefixes.lookup prefix_key).getD (cache_type ++ ":")
    let key := generateCacheKey md5hex pfx identifier
    match selectBackend defaultC firefliesC geminiC cache_type key with
    | none => true
    | some .nonDict => true
    | some (.dict fields) =>
      match fields.lookup "expires_at" with
      | none => true
      | some s =>
        match fromiso (pyReplace s "Z" "+00:00") with
        | none => true
        | some expires_at => decide (now > expires_at)

/-! ### Precision Monday.com delivery client
(`apps/core/precision_monday_client.py`,
`PrecisionMondayClient.deliver_processed_task`)

The remote `create_task_item` call is a parameter: `Except.error e` models a
raised exception, `Except.ok id` its return value (`none` = Python `None`).
Python's dynamically typed `return` statements (`False`/`True` booleans)
are captured by `PyRet` so the claim about returning an item id string is
statable.  The result also records the updated task row and whether the
remote call ran. -/

inductive PyRet where
  | boolV (b : Bool)
  | strV (s : String)
deriving DecidableEq, Repr

/-- Model of `deliver_processed_task`: not-ready tasks are rejected up front without
any remote call; otherwise the remote creation runs and either
`mark_delivered` fires or the failure is appended to `delivery_errors`. -/
def deliverProcessedTask (t : ProcessedTaskRow) (now : Int)
    (createItem : Except String (Option String)) :
    PyRet × ProcessedTaskRow × Bool :=
  if ¬ t.isReadyForDelivery then (.boolV false, t, false)
  else
    match createItem with
    | .error e =>
      (.boolV false,
        { t with delivery_status := "failed"
                 delivery_errors := t.delivery_errors ++ [e] }, true)
    | .ok idOpt =>
      match idOpt with
      | some id =>
        if id ≠ "" then (.boolV true, t.markDelivered now (some id), true)
        else
          (.boolV false,
            { t with delivery_status := "failed"
                     delivery_errors := t.delivery_errors ++
                       ["Monday.com delivery returned no item ID"] }, true)
      | none =>
        (.boolV false,
          { t with delivery_status := "failed"
                   delivery_errors := t.delivery_errors ++
                     ["Monday.com delivery returned no item ID"] }, true)

/-! ### Raw transcript cache integrity
(`apps/core/models.py`, `RawTranscriptCache.save` and `validate_integrity`)

`json.dumps(…, sort_keys=True)` and `hashlib.sha256(…).hexdigest()` are the
parameters `serialize` and `digest`. -/

structure RawTranscriptCacheRow where
  fireflies_id : String
  raw_fireflies_data : PyJson
  meeting_date : Int
  meeting_title : String
  participant_count : Nat
  duration_minutes : Nat
  processed : Bool
  data_hash : String
  is_valid : Bool
deriving Repr

/-- Model of `RawTranscriptCache.save`: recompute `data_hash` from the serialized raw
payload (`json.dumps(…, sort_keys=True)` is `dumpsSorted`), then persist.
No other field is touched. -/
def RawTranscriptCacheRow.save (digest : String → String)
    (dumpsSorted : PyJson → String) (r : RawTranscriptCacheRow) :
    RawTranscriptCacheRow :=
  { r with data_hash := digest (dumpsSorted r.raw_fireflies_data) }

/-- Model of `RawTranscriptCache.validate_integrity`: recompute the digest of the raw
payload and compare with the stored hash. -/
def RawTranscriptCacheRow.validateIntegrity (digest : String → String)
    (dumpsSorted : PyJson → String) (r : RawTranscriptCacheRow) : Bool :=
  r.data_hash == digest (dumpsSorted r.raw_fireflies_data)

/-! ### Fireflies transcript client
(`apps/core/fireflies_client.py`, `MultiKeyFirefliesClient`)

A raw transcript payload is modelled by `FirefliesPayload`, one field per
key the client reads.  `id = ""` models an absent or falsy id (the save
loop skips it); `Option` fields model `dict.get` with its default.
`date` and `duration` are non-negative epoch milliseconds, where Lean's
`/` agrees with Python's `//`. -/

structure FirefliesSentence where
  speaker_name : Option String
  text : Option String
  raw_text : Option String
deriving DecidableEq, Repr

structure FirefliesSummary where
  overview : Option String
  action_items : Option String
deriving DecidableEq, Repr

structure FirefliesAttendee where
  displayName : Option String
  email : Option String
deriving DecidableEq, Repr

structure FirefliesPayload where
  id : String
  title : Option String
  date : Option Int
  duration : Option Int
  organizer_email : Option String
  summary : Option FirefliesSummary
  sentences : List FirefliesSentence
  meeting_attendees : List FirefliesAttendee
deriving DecidableEq, Repr

/-- A row of the `Transcript` table, with the fields
`_save_transcripts_to_database` writes. -/
structure TranscriptRow where
  fireflies_id : String
  title : String
  meeting_date : Int
  duration_minutes : Int
  participant_count : Nat
  raw_data : FirefliesPayload
  content : String
  is_processed : Bool
deriving DecidableEq, Repr

/-- Model of `MultiKeyFirefliesClient._extract_content`: an overview line when the
summary has a truthy overview, then up to 100 `speaker: text` lines, using
`raw_text` when `text` is absent and skipping falsy texts. -/
def extractContent (p : FirefliesPayload) : String :=
  let overview_parts : List String :=
    match p.summary with
    | some su =>
      match su.overview with
      | some ov => if ov ≠ "" then ["Overview: " ++ ov] else []
      | none => []
    | none => []
  let sentence_parts : List String :=
    if p.sentences.isEmpty then []
    else
      "\nTranscript:" ::
        (p.sentences.take 100).filterMap (fun s =>
          let speaker := s.speaker_name.getD "Unknown"
          let text :=
            match s.text with
            | some t => t
            | none => s.raw_text.getD ""
          if text ≠ "" then some (speaker ++ ": " ++ text) else none)
  String.intercalate "\n" (overview_parts ++ sentence_parts)

/-- The `defaults` dict passed to `Transcript.objects.get_or_create`:
title truncated to 500, meeting date in epoch seconds (falling back to
`django_timezone.now()` for an absent date), duration in minutes when the
millisecond value is truthy, attendee count, the raw payload, and the
extracted content. -/
def transcriptDefaults (now : Int) (p : FirefliesPayload) : TranscriptRow :=
  { fireflies_id := p.id
    title := pyTake (p.title.getD "Untitled Meeting") 500
    meeting_date :=
      match p.date with
      | some d => if d ≠ 0 then d / 1000 else now
      | none => now
    duration_minutes :=
      match p.duration with
      | some d => if d ≠ 0 then d / 60000 else 0
      | none => 0
    participant_count := p.meeting_attendees.length
    raw_data := p
    content := extractContent p
    is_processed := false }

/-- Model of `Transcript.objects.get_or_create(fireflies_id=…, defaults=…)`: reuse
the existing row when one with this id exists, else append a fresh row
built from the defaults.  Returns the `created` flag and the table. -/
def getOrCreateTranscript (db : List TranscriptRow) (fid : String)
    (defaults : TranscriptRow) : Bool × List TranscriptRow :=
  match db.find? (fun r => r.fireflies_id == fid) with
  | some _ => (false, db)
  | none => (true, db ++ [defaults])

/-- Model of `MultiKeyFirefliesClient._save_transcripts_to_database`: one
`get_or_create` per payload, skipping payloads whose id is falsy.  An
existing row is left entirely unchanged (`get_or_create` only reads it). -/
def saveTranscriptsToDatabase (now : Int) (db : List TranscriptRow)
    (transcripts : List FirefliesPayload) : List TranscriptRow :=
  transcripts.foldl
    (fun db p =>
      if p.id = "" then db
      else (getOrCreateTranscript db p.id (transcriptDefaults now p)).2)
    db

/-- One upstream page request, as `_fetch_with_pagination` observes it:
`raised` models an exception from `_execute_query_with_failover`,
`badShape` a response without `data.transcripts`, `pageOf` the transcript
list of a page. -/
inductive UpstreamPage where
  | raised (e : String)
  | badShape
  | pageOf (ts : List FirefliesPayload)

/-- The `while page <= max_pages` loop of `_fetch_with_pagination`
(`limit = 50`, `max_pages = 10`): accumulate pages, stopping on an
exception, an unexpected response shape, an empty page, or a short page.
The first argument counts the remaining permitted iterations
(`max_pages - page + 1`, so `10` at the initial `page = 1`), which makes
the recursion structural while visiting exactly the pages the `while`
loop visits. -/
def paginateLoop (upstream : Nat → UpstreamPage) :
    Nat → Nat → List FirefliesPayload → List FirefliesPayload
  | 0, _, acc => acc
  | remaining + 1, page, acc =>
    match upstream page with
    | .raised _ => acc
    | .badShape => acc
    | .pageOf ts =>
      if ts.isEmpty then acc
      else
        let acc2 := acc ++ ts
        if ts.length < 50 then acc2
        else paginateLoop upstream remaining (page + 1) acc2

/-- Model of `MultiKeyFirefliesClient._fetch_with_pagination`: run the pagination
loop from page 1, cache the accumulated list when non-empty (the cache
write is reported as an `Option`), save to the database, and return the
accumulated list.  No stale-cache or database fallback appears in this
path, and no error is propagated to the caller. -/
def fetchWithPagination (upstream : Nat → UpstreamPage) (now : Int)
    (db : List TranscriptRow) :
    List FirefliesPayload × List TranscriptRow × Option (List FirefliesPayload) :=
  let all_transcripts := paginateLoop upstream 10 1 []
  let cache_write :=
    if all_transcripts.isEmpty then none else some all_transcripts
  (all_transcripts, saveTranscriptsToDatabase now db all_transcripts, cache_write)

/-- Model of `MultiKeyFirefliesClient.get_comprehensive_transcripts_with_pagination`:
serve the comprehensive cache entry when present and not forcing a
refresh, else fetch with pagination. -/
def getComprehensiveTranscripts (cached : Option (List FirefliesPayload))
    (force_refresh : Bool) (upstream : Nat → UpstreamPage) (now : Int)
    (db : List TranscriptRow) :
    List FirefliesPayload × List TranscriptRow × Option (List FirefliesPayload) :=
  match force_refresh, cached with
  | false, some ts => (ts, db, none)
  | _, _ => fetchWithPagination upstream now db

/-- Insertion into a list kept sorted by `meeting_date`, newest first. -/
def insertByDateDesc (r : TranscriptRow) :
    List TranscriptRow → List TranscriptRow
  | [] => [r]
  | x :: xs =>
    if r.meeting_date ≥ x.meeting_date then r :: x :: xs
    else x :: insertByDateDesc r xs

/-- Model of `Transcript.objects.all().order_by('-meeting_date')`. -/
def sortByDateDesc (db : List TranscriptRow) : List TranscriptRow :=
  db.foldr insertByDateDesc []

/-- Model of `MultiKeyFirefliesClient._get_transcripts_from_database`: the raw
payloads of the 100 most recent rows.  (The `if transcript.raw_data`
truthiness guard only skips empty payload dicts, which the save path never
writes.) -/
def getTranscriptsFromDatabase (db : List TranscriptRow) :
    List FirefliesPayload :=
  ((sortByDateDesc db).take 100).map (fun r => r.raw_data)

/-! ### Gemini extraction client
(`apps/core/gemini_client.py`, `EnhancedGeminiClient`)

The transcript dict handed to `extract_tasks_from_transcript` is modelled
by `GeminiTranscriptInput`.  The library `hashlib.md5` of
`json.dumps(key_data, sort_keys=True)` is the parameter `md5dumps` over the
extracted `PromptKeyData`; the Gemini HTTP round trip
(`_execute_request_with_retry` plus the `candidates[0].content.parts[0]`
navigation) is the parameter `llm`; `json.loads` is `jsonLoads`.  The
Django cache is an association list, `cache.set` prepending an entry. -/

structure GeminiTranscriptInput where
  title : Option String
  date : Option Int
  organizer_email : Option String
  sentences : List FirefliesSentence
  meeting_attendees : List FirefliesAttendee
  summary : Option FirefliesSummary
deriving DecidableEq, Repr

/-- The `key_data` dict built by `_generate_prompt_hash`: title, date,
number of sentences and organizer email — and nothing else. -/
structure PromptKeyData where
  title : String
  date : Option Int
  sentences_count : Nat
  organizer : String
deriving DecidableEq, Repr

/-- Model of `EnhancedGeminiClient._generate_prompt_hash`: hash of the serialized
`key_data` extracted from the transcript dict. -/
def generatePromptHash (md5dumps : PromptKeyData → String)
    (t : GeminiTranscriptInput) : String :=
  md5dumps
    { title := t.title.getD ""
      date := t.date
      sentences_count := t.sentences.length
      organizer := t.organizer_email.getD "" }

/-- Model of `EnhancedGeminiClient._get_cache_key` with `cache_prefix = 'gemini_'`. -/
def geminiCacheKey (prompt_hash : String) : String :=
  "gemini_" ++ ("extract_" ++ prompt_hash)

/-- Model of `EnhancedGeminiClient._format_sentences`. -/
def formatSentences (sentences : List FirefliesSentence) : String :=
  if sentences.isEmpty then "No transcript available"
  else
    String.intercalate "\n"
      (sentences.filterMap (fun s =>
        let speaker := s.speaker_name.getD "Unknown"
        let text := s.text.getD ""
        if text ≠ "" then some (speaker ++ ": " ++ text) else none))

/-- Model of `EnhancedGeminiClient._format_attendees`. -/
def formatAttendees (attendees : List FirefliesAttendee) : String :=
  if attendees.isEmpty then "No attendees listed"
  else
    String.intercalate "\n"
      (attendees.map (fun a =>
        "- " ++ a.displayName.getD "Unknown" ++ " <" ++ a.email.getD "no-email" ++ ">"))

/-- The `meeting_date_ms` interpolation `{transcript_data.get('date', '')}`:
the millisecond number, or the empty default. -/
def dateInterpolation (d : Option Int) : String :=
  match d with
  | some ms => toString ms
  | none => ""

/-- The `summary`-based interpolations
`{transcript_data.get('summary', {}).get(field, default)}`. -/
def summaryField (su : Option FirefliesSummary)
    (field : FirefliesSummary → Option String) (dflt : String) : String :=
  match su with
  | some s => (field s).getD dflt
  | none => dflt

/-- The TaskForge prompt f-string of `extract_tasks_from_transcript`,
assembled line by line (trailing double spaces are markdown line breaks
present in the source). -/
def buildGeminiPrompt (t : GeminiTranscriptInput) : String :=
  String.intercalate "\n"
    ["=== System ===",
     "You are **TaskForge**, an expert AI assistant whose only objective is to extract",
     "actionable to-do items from meeting-transcript JSON with maximum factual",
     "accuracy and natural-sounding output.  ",
     "Return **only** a JSON array (no markdown, comments, or prose) where each",
     "object has **exactly** the following keys, in this order:",
     "",
     "1. \"task_item\"                   – string, at least 10 natural, coherent words  ",
     "2. \"assignee_emails\"             – string (comma-separated if > 1)  ",
     "3. \"assignee(s)_full_names\"      – string (comma-separated ⇡)  ",
     "4. \"priority\"                    – \"High\" | \"Medium\" | \"Low\"  ",
     "5. \"brief_description\"           – string, 30–50 words, human tone  ",
     "6. \"due_date\"                    – integer (UTC ms) | null  ",
     "7. \"status\"                      – \"To Do\" | \"Stuck\" | \"Working on it\" | \"Waiting for review\" | \"Approved\" | \"Done\"",
     "",
     "No other keys are permitted. Preserve the order in which tasks appear in the",
     "source material.",
     "",
     "=== User ===",
     "Process only this meeting-transcript JSON:",
     "",
     "* title                → " ++ t.title.getD "Untitled Meeting" ++ "  ",
     "* meeting_date_ms      → " ++ dateInterpolation t.date ++ "  ",
     "* organizer_email      → " ++ t.organizer_email.getD "" ++ "  ",
     "",
     "Attendees (name ↔ email):  ",
     formatAttendees t.meeting_attendees,
     "",
     "Explicit Action Items:  ",
     summaryField t.summary FirefliesSummary.action_items "None specified",
     "",
     "Meeting Overview:  ",
     summaryField t.summary FirefliesSummary.overview "No overview available",
     "",
     "Full Transcript:  ",
     formatSentences t.sentences,
     "",
     "Return ONLY the JSON array described above."]

/-- The inline response cleaning of `extract_tasks_from_transcript`: unlike
`_parse_ai_output` it only strips a leading fence spelled with the `json`
tag (a bare three-backtick fence is left in place) and does not wrap bare
objects. -/
def cleanGeminiText (generated_text : String) : String :=
  let cleaned := pyStrip generated_text
  let cleaned :=
    if pyStartsWith cleaned "```json" then pyDrop cleaned 7 else cleaned
  let cleaned :=
    if pyEndsWith cleaned "```" then pyDropRight cleaned 3 else cleaned
  pyStrip cleaned

/-- The Gemini API round trip as `extract_tasks_from_transcript` observes
it: an exception, a response without candidates, candidates without parts,
or the generated text (`parts[0].get('text', '')`). -/
inductive GeminiApiResult where
  | raised (e : String)
  | noCandidates
  | noParts
  | text (generated : String)
deriving DecidableEq, Repr

/-- Model of `EnhancedGeminiClient.extract_tasks_from_transcript`: serve the
prompt-hash cache when it hits; otherwise build the prompt, call the LLM,
clean markdown fencing, parse, reject non-lists with `[]`, and cache a
successful list.  Also reports the updated cache and whether the LLM was
called. -/
def extractTasksFromTranscript (md5dumps : PromptKeyData → String)
    (jsonLoads : String → Option PyJson) (llm : String → GeminiApiResult)
    (cacheStore : List (String × List PyJson)) (t : GeminiTranscriptInput) :
    List PyJson × List (String × List PyJson) × Bool :=
  let prompt_hash := generatePromptHash md5dumps t
  let cache_key := geminiCacheKey prompt_hash
  match cacheStore.lookup cache_key with
  | some cached_result => (cached_result, cacheStore, false)
  | none =>
    let prompt := buildGeminiPrompt t
    match llm prompt with
    | .raised _ => ([], cacheStore, true)
    | .noCandidates => ([], cacheStore, true)
    | .noParts => ([], cacheStore, true)
    | .text generated_text =>
      match jsonLoads (cleanGeminiText generated_text) with
      | none => ([], cacheStore, true)
      | some (.arr tasks) => (tasks, (cache_key, tasks) :: cacheStore, true)
      | some _ => ([], cacheStore, true)

/-- Repeated `record_failure` calls, one per listed timestamp. -/
def CircuitBreaker.recordFailures (cb : CircuitBreaker) (ts : List Int) :
    CircuitBreaker :=
  ts.foldl CircuitBreaker.recordFailure cb

/-- Repeated `record_success` calls, one per listed timestamp. -/
def CircuitBreaker.recordSuccesses (cb : CircuitBreaker) (ts : List Int) :
    CircuitBreaker :=
  ts.foldl CircuitBreaker.recordSuccess cb

/-! ## Theorems -/

theorem canExecute_open_before_timeout (cb : CircuitBreaker) (t now : Int)
    (h : cb.state = .«open») (ht : cb.last_failure_time = some t)
    (hlt : now - t < cb.timeout) : cb.canExecute now = (false, cb) := by
  simp [CircuitBreaker.canExecute, h, ht, not_le.mpr hlt]

theorem canExecute_open_after_timeout (cb : CircuitBreaker) (t now : Int)
    (h : cb.state = .«open») (ht : cb.last_failure_time = some t)
    (hge : now - t ≥ cb.timeout) :
    cb.canExecute now = (true, { cb with state := .halfOpen }) := by
  simp [CircuitBreaker.canExecute, h, ht, hge]

theorem callOp_rejected_of_cannot_execute {α : Type} (cb : CircuitBreaker)
    (now : Int) (op : Except String α) (h : cb.canExecute now = (false, cb)) :
    cb.callOp now op = (.circuitBreakerOpenError, cb, false) := by
  simp [CircuitBreaker.callOp, h]

/-- C1: for a breaker configured with `failure_threshold = 5`,
`timeout = 60`, `success_threshold = 3` and starting CLOSED, five
consecutive recorded failures move the state to OPEN; a call attempted
before 60 seconds have elapsed since the last failure is rejected with
`CircuitBreakerOpenError` without running the operation and without
changing the breaker; a call attempted once 60 seconds have elapsed is
allowed, the state becoming HALF_OPEN; and from that HALF_OPEN state three
consecutive recorded successes move the state back to CLOSED with
`failure_count` reset to 0. -/
theorem circuit_breaker_c1_lifecycle (t1 t2 t3 t4 t5 now now2 s1 s2 s3 : Int)
    (op : Except String Unit) (hbefore : now - t5 < 60)
    (hafter : now2 - t5 ≥ 60) :
    (((CircuitBreaker.init 5 60 3).recordFailures [t1, t2, t3, t4, t5]).state
        = .«open») ∧
    (((CircuitBreaker.init 5 60 3).recordFailures [t1, t2, t3, t4, t5]).callOp
        now op =
      (.circuitBreakerOpenError,
        (CircuitBreaker.init 5 60 3).recordFailures [t1, t2, t3, t4, t5],
        false)) ∧
    (((CircuitBreaker.init 5 60 3).recordFailures [t1, t2, t3, t4, t5]).canExecute
        now2 =
      (true,
        { (CircuitBreaker.init 5 60 3).recordFailures [t1, t2, t3, t4, t5] with
            state := .halfOpen })) ∧
    (((((CircuitBreaker.init 5 60 3).recordFailures
          [t1, t2, t3, t4, t5]).canExecute now2).2.recordSuccesses
          [s1, s2, s3]).state = .closed) ∧
    (((((CircuitBreaker.init 5 60 3).recordFailures
          [t1, t2, t3, t4, t5]).canExecute now2).2.recordSuccesses
          [s1, s2, s3]).failure_count = 0) := by
  have hcb5 : (CircuitBreaker.init 5 60 3).recordFailures [t1, t2, t3, t4, t5] =
      { failure_threshold := 5, timeout := 60, success_threshold := 3,
        state := .«open», failure_count := 5, success_count := 0,
        last_failure_time := some t5, last_success_time := none } := rfl
  have hhalf := canExecute_open_after_timeout
    ((CircuitBreaker.init 5 60 3).recordFailures [t1, t2, t3, t4, t5]) t5 now2
    (by rw [hcb5]) (by rw [hcb5]) hafter
  refine ⟨by rw [hcb5], ?_, hhalf, ?_, ?_⟩
  · exact callOp_rejected_of_cannot_execute _ now op
      (canExecute_open_before_timeout _ t5 now (by rw [hcb5]) (by rw [hcb5]) hbefore)
  · rw [hhalf, hcb5]; rfl
  · rw [hhalf, hcb5]; rfl

/-- Witness for C1: the lifecycle at failure times 0..4, a rejected call at
time 30, an allowed call at time 70, successes at 71, 72, 73. -/
theorem circuit_breaker_c1_lifecycle_witness :
    (((CircuitBreaker.init 5 60 3).recordFailures [0, 1, 2, 3, 4]).state
        = .«open») ∧
    (((CircuitBreaker.init 5 60 3).recordFailures [0, 1, 2, 3, 4]).callOp
        30 (Except.ok ()) =
      (.circuitBreakerOpenError,
        (CircuitBreaker.init 5 60 3).recordFailures [0, 1, 2, 3, 4],
        false)) ∧
    (((CircuitBreaker.init 5 60 3).recordFailures [0, 1, 2, 3, 4]).canExecute
        70 =
      (true,
        { (CircuitBreaker.init 5 60 3).recordFailures [0, 1, 2, 3, 4] with
            state := .halfOpen })) ∧
    (((((CircuitBreaker.init 5 60 3).recordFailures
          [0, 1, 2, 3, 4]).canExecute 70).2.recordSuccesses
          [71, 72, 73]).state = .closed) ∧
    (((((CircuitBreaker.init 5 60 3).recordFailures
          [0, 1, 2, 3, 4]).canExecute 70).2.recordSuccesses
          [71, 72, 73]).failure_count = 0) :=
  circuit_breaker_c1_lifecycle 0 1 2 3 4 30 70 71 72 73 (Except.ok ())
    (by decide) (by decide)

/-- C2: evaluation of the code at the failing input.  The claim says a
failure recorded in Half-Open sends the breaker back to Open and resets
`failure_count`; in the code, a breaker that reached HALF_OPEN through the
genuine path (five failures at times 0..4, then an allowed probe at time
70) and then records a failure at time 80 stays HALF_OPEN — not OPEN — and
its `failure_count` rises to 6 instead of being reset:
`record_failure` only ever transitions CLOSED to OPEN. -/
theorem circuit_breaker_c2_half_open_failure :
    ((((CircuitBreaker.init 5 60 3).recordFailures
        [0, 1, 2, 3, 4]).canExecute 70).2.state = .halfOpen) ∧
    (((((CircuitBreaker.init 5 60 3).recordFailures
        [0, 1, 2, 3, 4]).canExecute 70).2.recordFailure 80).state = .halfOpen) ∧
    (((((CircuitBreaker.init 5 60 3).recordFailures
        [0, 1, 2, 3, 4]).canExecute 70).2.recordFailure 80).state ≠ .«open») ∧
    (((((CircuitBreaker.init 5 60 3).recordFailures
        [0, 1, 2, 3, 4]).canExecute 70).2.recordFailure 80).failure_count = 6) := by
  decide

/-- C3: for every cache key and every current time, `is_cache_stale`
reports fresh (`false`) exactly when the cache type is known, the selected
backend holds a dict entry under the generated key, the entry carries an
`expires_at` string, `fromisoformat` parses it, and the parsed expiry is
not in the past (`now ≤ expires_at`).  Consequently a missing entry, a
non-dict entry, missing or unparsable `expires_at` metadata, and a past
expiry are all reported stale. -/
theorem cache_staleness_c3 (md5hex : String → String)
    (fromiso : String → Option Int) (prefixes : List (String × String))
    (defaultC firefliesC geminiC : String → Option CacheValue) (now : Int)
    (cache_type identifier : String) :
    isCacheStale md5hex fromiso prefixes defaultC firefliesC geminiC now
        cache_type identifier = false ↔
      ∃ prefix_key fields s expires_at,
        prefixMap.lookup cache_type = some prefix_key ∧
        selectBackend defaultC firefliesC geminiC cache_type
            (generateCacheKey md5hex
              ((prefixes.lookup prefix_key).getD (cache_type ++ ":"))
              identifier) =
          some (.dict fields) ∧
        fields.lookup "expires_at" = some s ∧
        fromiso (pyReplace s "Z" "+00:00") = some expires_at ∧
        now ≤ expires_at := by
  unfold isCacheStale
  cases hpk : prefixMap.lookup cache_type with
  | none => simp [hpk]
  | some prefix_key =>
    simp only [hpk, Option.some.injEq]
    cases hb : selectBackend defaultC firefliesC geminiC cache_type
        (generateCacheKey md5hex
          ((prefixes.lookup prefix_key).getD (cache_type ++ ":")) identifier) with
    | none =>
      simp only [hb]
      constructor
      · intro h; simp at h
      · rintro ⟨pk, f2, s2, e2, hpk2, hb2, -, -, -⟩
        subst hpk2
        rw [hb] at hb2
        simp at hb2
    | some v =>
      cases v with
      | nonDict =>
        simp only [hb]
        constructor
        · intro h; simp at h
        · rintro ⟨pk, f2, s2, e2, hpk2, hb2, -, -, -⟩
          subst hpk2
          rw [hb] at hb2
          simp at hb2
      | dict fields =>
        simp only [hb]
        cases hf : fields.lookup "expires_at" with
        | none =>
          simp only [hf]
          constructor
          · intro h; simp at h
          · rintro ⟨pk, f2, s2, e2, hpk2, hb2, hf2, -, -⟩
            subst hpk2
            rw [hb] at hb2
            simp only [Option.some.injEq, CacheValue.dict.injEq] at hb2
            subst hb2
            rw [hf] at hf2
            simp at hf2
        | some s =>
          simp only [hf]
          cases hp : fromiso (pyReplace s "Z" "+00:00") with
          | none =>
            simp only [hp]
            constructor
            · intro h; simp at h
            · rintro ⟨pk, f2, s2, e2, hpk2, hb2, hf2, hp2, -⟩
              subst hpk2
              rw [hb] at hb2
              simp only [Option.some.injEq, CacheValue.dict.injEq] at hb2
              subst hb2
              rw [hf] at hf2
              cases hf2
              rw [hp] at hp2
              simp at hp2
          | some expires_at =>
            simp only [hp]
            rw [decide_eq_false_iff_not, not_lt]
            constructor
            · intro hle
              exact ⟨prefix_key, fields, s, expires_at, rfl, hb, hf, hp, hle⟩
            · rintro ⟨pk, f2, s2, e2, hpk2, hb2, hf2, hp2, hle⟩
              subst hpk2
              rw [hb] at hb2
              simp only [Option.some.injEq, CacheValue.dict.injEq] at hb2
              subst hb2
              rw [hf] at hf2
              cases hf2
              rw [hp] at hp2
              cases hp2
              exact hle

/-- Counterexample to C4 as stated: a well-formed parsed object carrying
every required field but a two-word `task_item` and a five-word
`brief_description` still yields a task — the code never enforces the
ten-word and 30-to-50-word constraints on the produced record, it only
clamps `priority` and `status`. -/
theorem extraction_contract_c4_counterexample :
    createProcessedTask
      { task_item := some "Do it"
        assignee_emails := some "bob@x.com"
        assignee_full_names := some "Bob Smith"
        priority := some "High"
        brief_description := some "Bob asked to do it quickly"
        status := some "Done"
        due_date := none } =
    some
      { task_item := "Do it"
        assignee_emails := "bob@x.com"
        assignee_full_names := "Bob Smith"
        priority := "High"
        brief_description := "Bob asked to do it quickly"
        due_date := none
        status := "Done"
        human_approved := false
        delivery_status := "pending"
        monday_item_id := ""
        delivered_at := none
        delivery_errors := [] } ∧
    ¬((pySplitWords "Do it").length ≥ 10) ∧
    ¬(30 ≤ (pySplitWords "Bob asked to do it quickly").length ∧
        (pySplitWords "Bob asked to do it quickly").length ≤ 50) := by
  decide

/-- C4 (amended): every task the extraction engine produces has `priority`
in the allowed set and `status` in the six allowed values, a parsed object
with `priority` or `status` outside those sets yielding the defaults
`Medium` and `To Do`; and the word-count validity flags are recomputed
locally from the stored text by the model `save` override rather than taken
from the LLM output.  The ten-word and 30-to-50-word constraints themselves
are not enforced on the record (see the counterexample); the flags merely
record whether they hold. -/
theorem extraction_contract_c4_amended :
    (∀ td t, createProcessedTask td = some t →
      t.priority ∈ allowedPriorities ∧
      t.status ∈ allowedStatuses ∧
      (∀ pr, td.priority = some pr → pr ∉ allowedPriorities →
        t.priority = "Medium") ∧
      (∀ st, td.status = some st → st ∉ allowedStatuses →
        t.status = "To Do")) ∧
    (∀ g : GeminiProcessedTaskRow,
      (GeminiProcessedTaskRow.save g).meets_word_count_requirement =
        decide ((pySplitWords g.task_item).length ≥ 10) ∧
      (GeminiProcessedTaskRow.save g).meets_description_requirement =
        decide (30 ≤ (pySplitWords g.brief_description).length ∧
          (pySplitWords g.brief_description).length ≤ 50)) := by
  constructor
  · intro td t h
    obtain ⟨ti, ae, an, pr, bd, st, dd⟩ := td
    cases ti <;> cases ae <;> cases an <;> cases pr <;> cases bd <;> cases st <;>
      simp [createProcessedTask] at h
    rename_i ti ae an pr bd st
    subst h
    refine ⟨?_, ?_, ?_, ?_⟩
    · by_cases hpr : pr ∈ allowedPriorities
      · simp only [if_pos hpr]
        exact hpr
      · simp only [if_neg hpr]
        decide
    · by_cases hst : st ∈ allowedStatuses
      · simp only [if_pos hst]
        exact hst
      · simp only [if_neg hst]
        decide
    · intro pr2 hpr2 hnot
      simp only [Option.some.injEq] at hpr2
      subst hpr2
      simp only [if_neg hnot]
    · intro st2 hst2 hnot
      simp only [Option.some.injEq] at hst2
      subst hst2
      simp only [if_neg hnot]
  · intro g
    constructor <;> simp [GeminiProcessedTaskRow.save]



/-- Witness for C4 (amended): a parsed object with invalid priority
`Urgent` and invalid status `Later` produces a task with `Medium` and
`To Do`, and the saved flag equals the locally recomputed word count
check. -/
theorem extraction_contract_c4_amended_witness :
    createProcessedTask
      { task_item := some "Prepare the quarterly budget report for the finance team today"
        assignee_emails := some "bob@x.com"
        assignee_full_names := some "Bob Smith"
        priority := some "Urgent"
        brief_description := some "short text"
        status := some "Later"
        due_date := none } =
    some
      { task_item := "Prepare the quarterly budget report for the finance team today"
        assignee_emails := "bob@x.com"
        assignee_full_names := "Bob Smith"
        priority := "Medium"
        brief_description := "short text"
        due_date := none
        status := "To Do"
        human_approved := false
        delivery_status := "pending"
        monday_item_id := ""
        delivered_at := none
        delivery_errors := [] } ∧
    ("Medium" : String) ∈ allowedPriorities ∧
    ("To Do" : String) ∈ allowedStatuses ∧
    (GeminiProcessedTaskRow.save
      { task_item := "Do it"
        brief_description := "short text"
        meets_word_count_requirement := true
        meets_description_requirement := true }).meets_word_count_requirement =
      decide ((pySplitWords "Do it").length ≥ 10) := by
  have h : createProcessedTask
      { task_item := some "Prepare the quarterly budget report for the finance team today"
        assignee_emails := some "bob@x.com"
        assignee_full_names := some "Bob Smith"
        priority := some "Urgent"
        brief_description := some "short text"
        status := some "Later"
        due_date := none } =
    some
      { task_item := "Prepare the quarterly budget report for the finance team today"
        assignee_emails := "bob@x.com"
        assignee_full_names := "Bob Smith"
        priority := "Medium"
        brief_description := "short text"
        due_date := none
        status := "To Do"
        human_approved := false
        delivery_status := "pending"
        monday_item_id := ""
        delivered_at := none
        delivery_errors := [] } := by decide
  refine ⟨h, ?_, ?_, ?_⟩
  · have := (extraction_contract_c4_amended.1 _ _ h).2.2.1 "Urgent" rfl (by decide)
    simpa [this] using (extraction_contract_c4_amended.1 _ _ h).1
  · have := (extraction_contract_c4_amended.1 _ _ h).2.2.2 "Later" rfl (by decide)
    simpa [this] using (extraction_contract_c4_amended.1 _ _ h).2.1
  · exact (extraction_contract_c4_amended.2 _).1

/-- Counterexample to C5 as stated: delivering a task whose
`delivery_status` is already `delivered` performs no remote call and leaves
the task unchanged, but the function returns the Python boolean `False` —
not the task's existing `monday_item_id` (`"123"`). -/
theorem delivery_noop_c5_counterexample :
    deliverProcessedTask
      { task_item := "Prepare the quarterly budget report for the finance team"
        assignee_emails := "bob@x.com"
        assignee_full_names := "Bob Smith"
        priority := "High"
        brief_description := "Bob asked Bob to prepare the report"
        due_date := none
        status := "Done"
        human_approved := true
        delivery_status := "delivered"
        monday_item_id := "123"
        delivered_at := some 1000
        delivery_errors := [] } 2000 (Except.ok (some "999")) =
      (.boolV false,
        { task_item := "Prepare the quarterly budget report for the finance team"
          assignee_emails := "bob@x.com"
          assignee_full_names := "Bob Smith"
          priority := "High"
          brief_description := "Bob asked Bob to prepare the report"
          due_date := none
          status := "Done"
          human_approved := true
          delivery_status := "delivered"
          monday_item_id := "123"
          delivered_at := some 1000
          delivery_errors := [] }, false) ∧
    (deliverProcessedTask
      { task_item := "Prepare the quarterly budget report for the finance team"
        assignee_emails := "bob@x.com"
        assignee_full_names := "Bob Smith"
        priority := "High"
        brief_description := "Bob asked Bob to prepare the report"
        due_date := none
        status := "Done"
        human_approved := true
        delivery_status := "delivered"
        monday_item_id := "123"
        delivered_at := some 1000
        delivery_errors := [] } 2000 (Except.ok (some "999"))).1 ≠
      PyRet.strV "123" := by
  decide

/-- C5 (amended): for every task whose `delivery_status` is already
`delivered`, `deliver_processed_task` performs no remote item-creation
call, leaves the task unchanged, and returns `False` (the task's existing
`remote_item_id` stays stored on the row but is not returned). -/
theorem delivery_noop_c5_amended (t : ProcessedTaskRow) (now : Int)
    (createItem : Except String (Option String))
    (h : t.delivery_status = "delivered") :
    deliverProcessedTask t now createItem = (.boolV false, t, false) := by
  have hready : t.isReadyForDelivery = false := by
    simp [ProcessedTaskRow.isReadyForDelivery, h]
  simp [deliverProcessedTask, hready]

/-- Witness for C5 (amended) at a concrete delivered task: even a failing
remote is never consulted. -/
theorem delivery_noop_c5_witness :
    deliverProcessedTask
      { task_item := "Send the final slides to the client before the call"
        assignee_emails := "ann@x.com"
        assignee_full_names := "Ann Lee"
        priority := "Low"
        brief_description := "Ann asked Ann to send the slides"
        due_date := none
        status := "Done"
        human_approved := true
        delivery_status := "delivered"
        monday_item_id := "4242"
        delivered_at := some 50
        delivery_errors := [] } 60 (Except.error "boom") =
      (.boolV false,
        { task_item := "Send the final slides to the client before the call"
          assignee_emails := "ann@x.com"
          assignee_full_names := "Ann Lee"
          priority := "Low"
          brief_description := "Ann asked Ann to send the slides"
          due_date := none
          status := "Done"
          human_approved := true
          delivery_status := "delivered"
          monday_item_id := "4242"
          delivered_at := some 50
          delivery_errors := [] }, false) :=
  delivery_noop_c5_amended _ 60 (Except.error "boom") rfl



theorem paginateLoop_raised (upstream : Nat → UpstreamPage) (e : String)
    (remaining page : Nat) (acc : List FirefliesPayload)
    (h : upstream page = .raised e) :
    paginateLoop upstream (remaining + 1) page acc = acc := by
  simp [paginateLoop, h]

/-- C6 (amended): an upstream failure on the first page of the
comprehensive fetch makes `_fetch_with_pagination` return the empty list,
leave the database untouched, and write nothing to the cache — no
stale-cache or database fallback is consulted and no failure is raised to
the caller. -/
theorem fetch_fallback_c6_amended (upstream : Nat → UpstreamPage) (now : Int)
    (db : List TranscriptRow) (e : String) (h : upstream 1 = .raised e) :
    fetchWithPagination upstream now db = ([], db, none) := by
  have hloop : paginateLoop upstream 10 1 [] = [] := by
    rw [show (10 : Nat) = 9 + 1 from rfl]
    exact paginateLoop_raised upstream e 9 1 [] h
  simp [fetchWithPagination, hloop, saveTranscriptsToDatabase]

/-- Witness for C6 (amended): a concrete always-failing upstream. -/
theorem fetch_fallback_c6_amended_witness :
    fetchWithPagination (fun _ => .raised "connection error") 0 [] =
      ([], [], none) :=
  fetch_fallback_c6_amended _ 0 [] "connection error" rfl

/-- Counterexample to C6 as stated: with the upstream raising on every
page and one transcript already persisted in the store, the comprehensive
fetch returns the empty list — it neither serves the persisted transcript
(which `_get_transcripts_from_database` would return) nor surfaces a
failure. -/
theorem fetch_fallback_c6_counterexample :
    fetchWithPagination (fun _ => .raised "connection error") 0
      [{ fireflies_id := "t1"
         title := "Weekly Sync"
         meeting_date := 1750000000
         duration_minutes := 30
         participant_count := 2
         raw_data :=
           { id := "t1"
             title := some "Weekly Sync"
             date := some 1750000000000
             duration := none
             organizer_email := some "alice@x.com"
             summary := none
             sentences := []
             meeting_attendees := [] }
         content := ""
         is_processed := false }] =
      ([],
        [{ fireflies_id := "t1"
           title := "Weekly Sync"
           meeting_date := 1750000000
           duration_minutes := 30
           participant_count := 2
           raw_data :=
             { id := "t1"
               title := some "Weekly Sync"
               date := some 1750000000000
               duration := none
               organizer_email := some "alice@x.com"
               summary := none
               sentences := []
               meeting_attendees := [] }
           content := ""
           is_processed := false }], none) ∧
    getTranscriptsFromDatabase
      [{ fireflies_id := "t1"
         title := "Weekly Sync"
         meeting_date := 1750000000
         duration_minutes := 30
         participant_count := 2
         raw_data :=
           { id := "t1"
             title := some "Weekly Sync"
             date := some 1750000000000
             duration := none
             organizer_email := some "alice@x.com"
             summary := none
             sentences := []
             meeting_attendees := [] }
         content := ""
         is_processed := false }] =
      [{ id := "t1"
         title := some "Weekly Sync"
         date := some 1750000000000
         duration := none
         organizer_email := some "alice@x.com"
         summary := none
         sentences := []
         meeting_attendees := [] }] ∧
    ([{ id := "t1"
        title := some "Weekly Sync"
        date := some 1750000000000
        duration := none
        organizer_email := some "alice@x.com"
        summary := none
        sentences := []
        meeting_attendees := [] }] : List FirefliesPayload) ≠ [] := by
  decide



theorem find?_append_left_none {α : Type} (l1 l2 : List α) (f : α → Bool)
    (h : l1.find? f = none) : (l1 ++ l2).find? f = l2.find? f := by
  induction l1 with
  | nil => rfl
  | cons x xs ih =>
    rw [List.find?_cons] at h
    rw [List.cons_append, List.find?_cons]
    cases hx : f x with
    | true => simp [hx] at h
    | false =>
      simp only [hx] at h ⊢
      exact ih h

/-- C7: ingesting a payload and then a second payload with the same
external id through `_save_transcripts_to_database` leaves the table of the
first ingestion entirely unchanged (even when the second payload's fields
differ), and after the first ingestion exactly one row carries that id and
its stored raw payload is the first payload — first write wins. -/
theorem ingestion_idempotent_c7 (now now2 : Int) (db : List TranscriptRow)
    (p p2 : FirefliesPayload) (hid : p2.id = p.id) (hne : ¬ p.id = "")
    (hfresh : ∀ r ∈ db, r.fireflies_id ≠ p.id) :
    saveTranscriptsToDatabase now2 (saveTranscriptsToDatabase now db [p]) [p2] =
      saveTranscriptsToDatabase now db [p] ∧
    ((saveTranscriptsToDatabase now db [p]).filter
        (fun r => r.fireflies_id == p.id)).length = 1 ∧
    ((saveTranscriptsToDatabase now db [p]).find?
        (fun r => r.fireflies_id == p.id)).map (fun r => r.raw_data) = some p := by
  have hdbfind : db.find? (fun r => r.fireflies_id == p.id) = none := by
    rw [List.find?_eq_none]
    intro r hr
    simp [hfresh r hr]
  have hdb1 : saveTranscriptsToDatabase now db [p] =
      db ++ [transcriptDefaults now p] := by
    simp [saveTranscriptsToDatabase, hne, getOrCreateTranscript, hdbfind]
  have hdefid : (transcriptDefaults now p).fireflies_id = p.id := rfl
  have hfind2 : (db ++ [transcriptDefaults now p]).find?
      (fun r => r.fireflies_id == p.id) = some (transcriptDefaults now p) := by
    rw [find?_append_left_none _ _ _ hdbfind]
    simp [List.find?_cons, hdefid]
  refine ⟨?_, ?_, ?_⟩
  · rw [hdb1]
    have hne2 : ¬ p2.id = "" := by rw [hid]; exact hne
    have hfindp2 : (db ++ [transcriptDefaults now p]).find?
        (fun r => r.fireflies_id == p2.id) = some (transcriptDefaults now p) := by
      rw [hid]; exact hfind2
    simp [saveTranscriptsToDatabase, hne2, getOrCreateTranscript, hfindp2]
  · rw [hdb1, List.filter_append]
    have hfe : db.filter (fun r => r.fireflies_id == p.id) = [] := by
      rw [List.filter_eq_nil_iff]
      intro r hr
      simp [hfresh r hr]
    rw [hfe]
    simp [List.filter, hdefid]
  · rw [hdb1, hfind2]
    rfl

/-- Witness for C7: the same `t1` id ingested twice with different titles,
dates, durations and organizers; the second ingestion changes nothing. -/
theorem ingestion_idempotent_c7_witness :
    saveTranscriptsToDatabase 20
      (saveTranscriptsToDatabase 10 []
        [{ id := "t1", title := some "Weekly Sync", date := some 1750000000000,
           duration := some 1800000, organizer_email := some "alice@x.com",
           summary := none, sentences := [], meeting_attendees := [] }])
      [{ id := "t1", title := some "Renamed Meeting", date := some 1750000005000,
         duration := some 60000, organizer_email := some "mallory@x.com",
         summary := none, sentences := [], meeting_attendees := [] }] =
      saveTranscriptsToDatabase 10 []
        [{ id := "t1", title := some "Weekly Sync", date := some 1750000000000,
           duration := some 1800000, organizer_email := some "alice@x.com",
           summary := none, sentences := [], meeting_attendees := [] }] ∧
    ((saveTranscriptsToDatabase 10 []
        [{ id := "t1", title := some "Weekly Sync", date := some 1750000000000,
           duration := some 1800000, organizer_email := some "alice@x.com",
           summary := none, sentences := [], meeting_attendees := [] }]).filter
        (fun r => r.fireflies_id ==
          ({ id := "t1", title := some "Weekly Sync", date := some 1750000000000,
             duration := some 1800000, organizer_email := some "alice@x.com",
             summary := none, sentences := [],
             meeting_attendees := [] } : FirefliesPayload).id)).length = 1 ∧
    ((saveTranscriptsToDatabase 10 []
        [{ id := "t1", title := some "Weekly Sync", date := some 1750000000000,
           duration := some 1800000, organizer_email := some "alice@x.com",
           summary := none, sentences := [], meeting_attendees := [] }]).find?
        (fun r => r.fireflies_id ==
          ({ id := "t1", title := some "Weekly Sync", date := some 1750000000000,
             duration := some 1800000, organizer_email := some "alice@x.com",
             summary := none, sentences := [],
             meeting_attendees := [] } : FirefliesPayload).id)).map
        (fun r => r.raw_data) =
      some { id := "t1", title := some "Weekly Sync", date := some 1750000000000,
             duration := some 1800000, organizer_email := some "alice@x.com",
             summary := none, sentences := [], meeting_attendees := [] } :=
  ingestion_idempotent_c7 10 20 [] _ _ rfl (by decide) (by simp)



/-- C8: `_parse_ai_output` strips a leading three-backtick-json or bare
three-backtick fence and a trailing three-backtick fence (shown on
representative inputs, together with plain whitespace stripping), and on
the cleaned text: a decoded bare object is coerced into a one-element
array, a decoded array is returned as is, and an undecodable input or any
decoded value that is neither an array nor an object yields the empty
list. -/
theorem parse_defensive_c8 (p : String → Option PyJson) (s : String)
    (fields : List (String × PyJson)) (items : List PyJson) :
    cleanAiOutput "```json\n[1, 2]\n```" = "[1, 2]" ∧
    cleanAiOutput "```\n[1, 2]\n```" = "[1, 2]" ∧
    cleanAiOutput "   [1, 2]   " = "[1, 2]" ∧
    (p (cleanAiOutput s) = some (.obj fields) →
      parseAiOutput p s = [.obj fields]) ∧
    (p (cleanAiOutput s) = some (.arr items) → parseAiOutput p s = items) ∧
    (p (cleanAiOutput s) = none → parseAiOutput p s = []) ∧
    (∀ v, p (cleanAiOutput s) = some v → (∀ f, v ≠ PyJson.obj f) →
      (∀ l, v ≠ PyJson.arr l) → parseAiOutput p s = []) := by
  refine ⟨by decide, by decide, by decide, ?_, ?_, ?_, ?_⟩
  · intro h
    unfold parseAiOutput
    rw [h]
    rfl
  · intro h
    unfold parseAiOutput
    rw [h]
    rfl
  · intro h
    unfold parseAiOutput
    rw [h]
    rfl
  · intro v hv hobj harr
    unfold parseAiOutput
    rw [hv]
    cases v with
    | obj f => exact absurd rfl (hobj f)
    | arr l => exact absurd rfl (harr l)
    | null => rfl
    | bool b => rfl
    | num n => rfl
    | str t => rfl

/-- Witness for C8: decoders returning an object, an array, a decode
failure, and a non-array scalar. -/
theorem parse_defensive_c8_witness :
    parseAiOutput (fun _ => some (PyJson.obj [])) "x" = [PyJson.obj []] ∧
    parseAiOutput (fun _ => some (PyJson.arr [PyJson.num 1])) "x" =
      [PyJson.num 1] ∧
    parseAiOutput (fun _ => none) "x" = [] ∧
    parseAiOutput (fun _ => some PyJson.null) "x" = [] :=
  ⟨(parse_defensive_c8 _ "x" [] []).2.2.2.1 rfl,
   (parse_defensive_c8 _ "x" [] [PyJson.num 1]).2.2.2.2.1 rfl,
   (parse_defensive_c8 _ "x" [] []).2.2.2.2.2.1 rfl,
   (parse_defensive_c8 _ "x" [] []).2.2.2.2.2.2 PyJson.null rfl
     (fun _ h => PyJson.noConfusion h) (fun _ h => PyJson.noConfusion h)⟩

/-- C9: after any `RawTranscriptCache.save` — the initial store or any
later update — the stored `data_hash` equals the digest of the serialized
stored raw payload, the save itself never mutates the raw payload, and
`validate_integrity` succeeds on the saved row. -/
theorem raw_cache_integrity_c9 (digest : String → String)
    (dumpsSorted : PyJson → String) (r : RawTranscriptCacheRow) :
    (r.save digest dumpsSorted).data_hash =
      digest (dumpsSorted (r.save digest dumpsSorted).raw_fireflies_data) ∧
    (r.save digest dumpsSorted).raw_fireflies_data = r.raw_fireflies_data ∧
    (r.save digest dumpsSorted).validateIntegrity digest dumpsSorted = true := by
  refine ⟨rfl, rfl, ?_⟩
  simp [RawTranscriptCacheRow.save, RawTranscriptCacheRow.validateIntegrity]



/-- C10: two transcripts agreeing on title, date, number of sentences and
organizer email produce the same prompt hash even when their sentence texts
differ; after the first transcript is extracted (cache miss, LLM called,
result cached), extracting the second while the cached entry is present
returns the first transcript's cached task list with the cache unchanged
and without calling the LLM. -/
theorem gemini_cache_collision_c10 (md5dumps : PromptKeyData → String)
    (jsonLoads : String → Option PyJson) (llm : String → GeminiApiResult)
    (cache0 : List (String × List PyJson)) (t1 t2 : GeminiTranscriptInput)
    (g : String) (tasks : List PyJson)
    (htitle : t2.title = t1.title) (hdate : t2.date = t1.date)
    (hcount : t2.sentences.length = t1.sentences.length)
    (horg : t2.organizer_email = t1.organizer_email)
    (hmiss : cache0.lookup (geminiCacheKey (generatePromptHash md5dumps t1)) =
      none)
    (hllm : llm (buildGeminiPrompt t1) = .text g)
    (hparse : jsonLoads (cleanGeminiText g) = some (.arr tasks)) :
    generatePromptHash md5dumps t2 = generatePromptHash md5dumps t1 ∧
    extractTasksFromTranscript md5dumps jsonLoads llm cache0 t1 =
      (tasks,
        (geminiCacheKey (generatePromptHash md5dumps t1), tasks) :: cache0,
        true) ∧
    extractTasksFromTranscript md5dumps jsonLoads llm
        ((geminiCacheKey (generatePromptHash md5dumps t1), tasks) :: cache0)
        t2 =
      (tasks,
        (geminiCacheKey (generatePromptHash md5dumps t1), tasks) :: cache0,
        false) := by
  have hhash : generatePromptHash md5dumps t2 = generatePromptHash md5dumps t1 := by
    unfold generatePromptHash
    rw [htitle, hdate, hcount, horg]
  refine ⟨hhash, ?_, ?_⟩
  · unfold extractTasksFromTranscript
    simp only [hmiss, hllm, hparse]
  · unfold extractTasksFromTranscript
    simp only [hhash]
    simp [List.lookup]



/-- Witness for C10: two transcripts that differ only in their single
sentence's text; the second extraction returns the first's cached result
without an LLM call. -/
theorem gemini_cache_collision_c10_witness :
    generatePromptHash (fun _ => "h1")
      { title := some "Weekly Sync", date := some 1750032000000,
        organizer_email := some "alice@x.com",
        sentences := [{ speaker_name := some "Alice",
                        text := some "Ship the release on Friday",
                        raw_text := none }],
        meeting_attendees := [], summary := none } =
    generatePromptHash (fun _ => "h1")
      { title := some "Weekly Sync", date := some 1750032000000,
        organizer_email := some "alice@x.com",
        sentences := [{ speaker_name := some "Alice",
                        text := some "Bob will send the report",
                        raw_text := none }],
        meeting_attendees := [], summary := none } ∧
    extractTasksFromTranscript (fun _ => "h1")
      (fun s => if s = "[]" then some (PyJson.arr []) else none)
      (fun _ => .text "[]") []
      { title := some "Weekly Sync", date := some 1750032000000,
        organizer_email := some "alice@x.com",
        sentences := [{ speaker_name := some "Alice",
                        text := some "Bob will send the report",
                        raw_text := none }],
        meeting_attendees := [], summary := none } =
      ([],
        [(geminiCacheKey (generatePromptHash (fun _ => "h1")
          { title := some "Weekly Sync", date := some 1750032000000,
            organizer_email := some "alice@x.com",
            sentences := [{ speaker_name := some "Alice",
                            text := some "Bob will send the report",
                            raw_text := none }],
            meeting_attendees := [], summary := none }), [])],
        true) ∧
    extractTasksFromTranscript (fun _ => "h1")
      (fun s => if s = "[]" then some (PyJson.arr []) else none)
      (fun _ => .text "[]")
      [(geminiCacheKey (generatePromptHash (fun _ => "h1")
        { title := some "Weekly Sync", date := some 1750032000000,
          organizer_email := some "alice@x.com",
          sentences := [{ speaker_name := some "Alice",
                          text := some "Bob will send the report",
                          raw_text := none }],
          meeting_attendees := [], summary := none }), [])]
      { title := some "Weekly Sync", date := some 1750032000000,
        organizer_email := some "alice@x.com",
        sentences := [{ speaker_name := some "Alice",
                        text := some "Ship the release on Friday",
                        raw_text := none }],
        meeting_attendees := [], summary := none } =
      ([],
        [(geminiCacheKey (generatePromptHash (fun _ => "h1")
          { title := some "Weekly Sync", date := some 1750032000000,
            organizer_email := some "alice@x.com",
            sentences := [{ speaker_name := some "Alice",
                            text := some "Bob will send the report",
                            raw_text := none }],
            meeting_attendees := [], summary := none }), [])],
        false) :=
  gemini_cache_collision_c10 (fun _ => "h1")
    (fun s => if s = "[]" then some (PyJson.arr []) else none)
    (fun _ => .text "[]") [] _ _ "[]" []
    rfl rfl rfl rfl rfl rfl rfl

end TaskForge
